import Mathlib

/-!
Verification of the row-to-event transformation and serialization pipeline of
`generate_ics.py` (uni-staff-calendar).  The Python source is shallowly
embedded: spreadsheet cell values become the inductive type `Value`, the
module-level helper functions (`norm`, `fmt_local`, `fmt_date`, `_to_date`,
`_to_time`, `parse_datetime`, `truthy`, `make_uid`) and the row loop of
`main` become Lean functions.  Machine-level details (SHA-1, UTF-8) are
implemented over `Nat` with explicit reduction modulo 2^32.  Python
exceptions are modelled with `Except`: an operation that can raise returns
`Except PyExc _`, and a `try/except` block becomes a `match` on that result.
-/

namespace ICS

/-- Python `datetime.date`: a calendar date.  Python's constructor enforces
`1 ≤ year ≤ 9999`, `1 ≤ month ≤ 12`, `1 ≤ day ≤ days in month`; the parsing
functions below perform those checks explicitly where the source relies on
the constructor raising `ValueError`. -/
structure PyDate where
  year : Nat
  month : Nat
  day : Nat
deriving DecidableEq, Repr

/-- Python `datetime.time` at second precision (microseconds are always zero
in every value this pipeline constructs or renders). -/
structure PyTime where
  hour : Nat
  minute : Nat
  second : Nat
deriving DecidableEq, Repr

/-- A spreadsheet cell value as handed over by `openpyxl` with
`values_only=True`: `None` for an empty cell, a string, or a native
date/time/datetime value. -/
inductive Value where
  | none : Value
  | str (s : String) : Value
  | date (d : PyDate) : Value
  | time (t : PyTime) : Value
  | datetime (d : PyDate) (t : PyTime) : Value
deriving DecidableEq, Repr

/-- The only exception kind the embedded operations can raise
(`datetime.strptime`, `datetime.fromisoformat` and the `date`/`datetime`
constructors all raise `ValueError` on bad input). -/
inductive PyExc where
  | valueError : PyExc
deriving DecidableEq, Repr

def pad2 (n : Nat) : String :=
  if n < 10 then "0" ++ toString n else toString n

def pad4 (n : Nat) : String :=
  if n < 10 then "000" ++ toString n
  else if n < 100 then "00" ++ toString n
  else if n < 1000 then "0" ++ toString n
  else toString n

/-- Python `str(value)` on the cell values above: `str(None) = "None"`,
`str(date)` is ISO `YYYY-MM-DD`, `str(time)` is `HH:MM:SS`,
`str(datetime)` is `YYYY-MM-DD HH:MM:SS`. -/
def pyStr : Value → String
  | .none => "None"
  | .str s => s
  | .date d => pad4 d.year ++ "-" ++ pad2 d.month ++ "-" ++ pad2 d.day
  | .time t => pad2 t.hour ++ ":" ++ pad2 t.minute ++ ":" ++ pad2 t.second
  | .datetime d t =>
      pad4 d.year ++ "-" ++ pad2 d.month ++ "-" ++ pad2 d.day ++ " " ++
      pad2 t.hour ++ ":" ++ pad2 t.minute ++ ":" ++ pad2 t.second

/-- The characters `str.strip()` removes. -/
def pySpace (c : Char) : Bool :=
  c = ' ' || c = '\t' || c = '\n' || c = '\r' || c = '\x0b' || c = '\x0c'

/-- Python `s.strip()`. -/
def pyStrip (s : String) : String :=
  ⟨((s.data.dropWhile pySpace).reverse.dropWhile pySpace).reverse⟩

/-- Python `s.lower()` (ASCII range, which is all the truthy set needs). -/
def pyLower (s : String) : String := ⟨s.data.map Char.toLower⟩

/-- Python truthiness `bool(v)` of a cell value: `None` and `""` are falsy,
every other string and every date/time/datetime value is truthy. -/
def pyTruthy : Value → Bool
  | .none => false
  | .str s => s ≠ ""
  | _ => true

/-- Split a character list at every occurrence of `sep`
(Python `s.split(sep)`). -/
def splitChar (sep : Char) : List Char → List (List Char)
  | [] => [[]]
  | c :: rest =>
    let r := splitChar sep rest
    if c = sep then [] :: r
    else
      match r with
      | [] => [[c]]
      | g :: gs => (c :: g) :: gs

def digitsVal (cs : List Char) : Nat :=
  cs.foldl (fun a c => a * 10 + (c.toNat - 48)) 0

def allDigits (cs : List Char) : Bool := cs.all Char.isDigit

/-- A 1-or-2-digit numeric field of `strptime`.  The underlying regular
expressions (e.g. `3[01]|[12]\d|0[1-9]|[1-9]` for `%d`) accept a two-digit
group whose value lies in `[lo2, hi2]` or a single digit whose value lies
in `[lo1, hi1]`. -/
def numField (lo1 hi1 lo2 hi2 : Nat) (cs : List Char) : Option Nat :=
  if allDigits cs then
    let v := digitsVal cs
    if cs.length = 1 ∧ lo1 ≤ v ∧ v ≤ hi1 then some v
    else if cs.length = 2 ∧ lo2 ≤ v ∧ v ≤ hi2 then some v
    else none
  else none

/-- Embeds `strptime`'s `%Y`: exactly four digits. -/
def yearField (cs : List Char) : Option Nat :=
  if cs.length = 4 ∧ allDigits cs then some (digitsVal cs) else none

def isLeap (y : Nat) : Bool := (y % 4 = 0 && y % 100 ≠ 0) || y % 400 = 0

def daysInMonth (y m : Nat) : Nat :=
  if m = 2 then (if isLeap y then 29 else 28)
  else if m = 4 ∨ m = 6 ∨ m = 9 ∨ m = 11 then 30
  else 31

/-- The `date`/`datetime` constructor check on a parsed y/m/d triple (month
and day lower bounds are already enforced by the field patterns). -/
def validYMD (y m d : Nat) : Bool := 1 ≤ y ∧ d ≤ daysInMonth y m

/-- Embeds `datetime.strptime(s, "%Y-%m-%d").date()`: the pattern is
4-digit year, `-`, 1-2-digit month `1..12`, `-`, 1-2-digit day `1..31`,
matched against the whole string; the subsequent `datetime(...)`
construction raises `ValueError` for an impossible calendar date. -/
def strptimeYMD (s : String) : Except PyExc PyDate :=
  match splitChar '-' s.data with
  | [ys, ms, ds] =>
    match yearField ys, numField 1 9 1 12 ms, numField 1 9 1 31 ds with
    | some y, some m, some d =>
        if validYMD y m d then .ok ⟨y, m, d⟩ else .error .valueError
    | _, _, _ => .error .valueError
  | _ => .error .valueError

/-- Embeds `datetime.strptime(s, "%d/%m/%Y").date()`: day first. -/
def strptimeDMY (s : String) : Except PyExc PyDate :=
  match splitChar '/' s.data with
  | [ds, ms, ys] =>
    match yearField ys, numField 1 9 1 12 ms, numField 1 9 1 31 ds with
    | some y, some m, some d =>
        if validYMD y m d then .ok ⟨y, m, d⟩ else .error .valueError
    | _, _, _ => .error .valueError
  | _ => .error .valueError

/-- Embeds `datetime.strptime(s, "%m/%d/%Y").date()`: month first. -/
def strptimeMDY (s : String) : Except PyExc PyDate :=
  match splitChar '/' s.data with
  | [ms, ds, ys] =>
    match yearField ys, numField 1 9 1 12 ms, numField 1 9 1 31 ds with
    | some y, some m, some d =>
        if validYMD y m d then .ok ⟨y, m, d⟩ else .error .valueError
    | _, _, _ => .error .valueError
  | _ => .error .valueError

/-- Embeds `datetime.strptime(s, "%H:%M").time()`: 1-2-digit hour `0..23`,
`:`, 1-2-digit minute `0..59`. -/
def strptimeHM (s : String) : Except PyExc PyTime :=
  match splitChar ':' s.data with
  | [hs, ms] =>
    match numField 0 9 0 23 hs, numField 0 9 0 59 ms with
    | some h, some m => .ok ⟨h, m, 0⟩
    | _, _ => .error .valueError
  | _ => .error .valueError

/-- Embeds `datetime.strptime(s, "%H:%M:%S").time()` (seconds are kept: the source
does not truncate the result of this parse). -/
def strptimeHMS (s : String) : Except PyExc PyTime :=
  match splitChar ':' s.data with
  | [hs, ms, ss] =>
    match numField 0 9 0 23 hs, numField 0 9 0 59 ms, numField 0 9 0 59 ss with
    | some h, some m, some sec => .ok ⟨h, m, sec⟩
    | _, _, _ => .error .valueError
  | _ => .error .valueError

/-- The date part accepted by CPython's `datetime.fromisoformat`:
`YYYY-MM-DD` or the compact `YYYYMMDD`, returning the remaining characters.
This models the C library routine (not repository code) at the precision the
pipeline exercises; extended forms (week dates, ordinal dates) are outside
the modelled subset. -/
def isoDatePart : List Char → Except PyExc (PyDate × List Char)
  | y1 :: y2 :: y3 :: y4 :: '-' :: m1 :: m2 :: '-' :: d1 :: d2 :: rest =>
    if allDigits [y1, y2, y3, y4, m1, m2, d1, d2] then
      let y := digitsVal [y1, y2, y3, y4]
      let m := digitsVal [m1, m2]
      let d := digitsVal [d1, d2]
      if 1 ≤ m ∧ m ≤ 12 ∧ 1 ≤ d ∧ validYMD y m d then .ok (⟨y, m, d⟩, rest)
      else .error .valueError
    else .error .valueError
  | y1 :: y2 :: y3 :: y4 :: m1 :: m2 :: d1 :: d2 :: rest =>
    if allDigits [y1, y2, y3, y4, m1, m2, d1, d2] then
      let y := digitsVal [y1, y2, y3, y4]
      let m := digitsVal [m1, m2]
      let d := digitsVal [d1, d2]
      if 1 ≤ m ∧ m ≤ 12 ∧ 1 ≤ d ∧ validYMD y m d then .ok (⟨y, m, d⟩, rest)
      else .error .valueError
    else .error .valueError
  | _ => .error .valueError

/-- The time-of-day part accepted by `datetime.fromisoformat` after the
separator, modelled at the precision the pipeline exercises:
`HH`, `HH:MM` or `HH:MM:SS` with two-digit fields (fractions and UTC
offsets are outside the modelled subset). -/
def isoTimePart : List Char → Except PyExc PyTime
  | [h1, h2] =>
    if allDigits [h1, h2] ∧ digitsVal [h1, h2] ≤ 23 then
      .ok ⟨digitsVal [h1, h2], 0, 0⟩
    else .error .valueError
  | [h1, h2, ':', m1, m2] =>
    if allDigits [h1, h2, m1, m2] ∧ digitsVal [h1, h2] ≤ 23 ∧
        digitsVal [m1, m2] ≤ 59 then
      .ok ⟨digitsVal [h1, h2], digitsVal [m1, m2], 0⟩
    else .error .valueError
  | [h1, h2, ':', m1, m2, ':', s1, s2] =>
    if allDigits [h1, h2, m1, m2, s1, s2] ∧ digitsVal [h1, h2] ≤ 23 ∧
        digitsVal [m1, m2] ≤ 59 ∧ digitsVal [s1, s2] ≤ 59 then
      .ok ⟨digitsVal [h1, h2], digitsVal [m1, m2], digitsVal [s1, s2]⟩
    else .error .valueError
  | _ => .error .valueError

/-- Embeds `datetime.fromisoformat(s)`: a date part, optionally followed by a
single separator character and a time part; a bare date gets midnight. -/
def fromisoformat (s : String) : Except PyExc (PyDate × PyTime) :=
  match isoDatePart s.data with
  | .error e => .error e
  | .ok (d, rest) =>
    match rest with
    | [] => .ok (d, ⟨0, 0, 0⟩)
    | _ :: tcs =>
      match isoTimePart tcs with
      | .ok t => .ok (d, t)
      | .error e => .error e

/-- Embeds `_to_date` of the source, with the Python exception flow explicit:
each `try: ... except ValueError: pass` around a `strptime` call and the
final `try: ... except Exception: return None` become matches on the
`Except` results, so a result of `.error` would mean an exception escaping
the function. -/
def toDateExc (v : Value) : Except PyExc (Option PyDate) :=
  if v = .none ∨ v = .str "" then .ok Option.none
  else
    match v with
    | .datetime d _ => .ok (some d)
    | .date d => .ok (some d)
    | v =>
      let s := pyStrip (pyStr v)
      match strptimeYMD s with
      | .ok d => .ok (some d)
      | .error .valueError =>
        match strptimeDMY s with
        | .ok d => .ok (some d)
        | .error .valueError =>
          match strptimeMDY s with
          | .ok d => .ok (some d)
          | .error .valueError =>
            match fromisoformat s with
            | .ok (d, _) => .ok (some d)
            | .error _ => .ok Option.none

/-- Embeds `_to_date` as used by the pipeline.  The `.error` branch is unreachable
(see the totality theorem for claim C8). -/
def toDate (v : Value) : Option PyDate :=
  match toDateExc v with
  | .ok r => r
  | .error _ => Option.none

/-- Embeds `_to_time` of the source with the exception flow explicit.  Native
`datetime`/`time` values are truncated with `replace(second=0,
microsecond=0)`; the `strptime` branches keep their parsed seconds; the
`fromisoformat` fallback takes `.time()` and truncates. -/
def toTimeExc (v : Value) : Except PyExc (Option PyTime) :=
  if v = .none ∨ v = .str "" then .ok Option.none
  else
    match v with
    | .datetime _ t => .ok (some ⟨t.hour, t.minute, 0⟩)
    | .time t => .ok (some ⟨t.hour, t.minute, 0⟩)
    | v =>
      let s := pyStrip (pyStr v)
      match strptimeHM s with
      | .ok t => .ok (some t)
      | .error .valueError =>
        match strptimeHMS s with
        | .ok t => .ok (some t)
        | .error .valueError =>
          match fromisoformat s with
          | .ok (_, t) => .ok (some ⟨t.hour, t.minute, 0⟩)
          | .error _ => .ok Option.none

/-- Embeds `_to_time` as used by the pipeline (the `.error` branch is
unreachable, see claim C8). -/
def toTime (v : Value) : Option PyTime :=
  match toTimeExc v with
  | .ok r => r
  | .error _ => Option.none

/-- Embeds `parse_datetime(d_val, t_val)`: `None` when the date fails to parse,
otherwise the date combined with the parsed time or midnight
(`datetime(d.year, d.month, d.day, t.hour, t.minute, 0)`). -/
def parse_datetime (d_val t_val : Value) : Option (PyDate × PyTime) :=
  match toDate d_val with
  | Option.none => Option.none
  | some d =>
    let t := (toTime t_val).getD ⟨0, 0, 0⟩
    some (d, ⟨t.hour, t.minute, 0⟩)

/-- Embeds `truthy(val)`: `False` for `None`, otherwise membership of the trimmed,
lowercased string rendering in the fixed truthy set. -/
def truthy : Value → Bool
  | .none => false
  | v => ["true", "yes", "y", "1", "transparent", "free"].contains
      (pyLower (pyStrip (pyStr v)))

/-! ### SHA-1 and UTF-8, over `Nat` (reduced modulo 2^32 where Python's
`hashlib.sha1` works on 32-bit words). -/

def M32 : Nat := 4294967296

/-- Left rotation of a 32-bit word held in a `Nat`. -/
def rotl (n x : Nat) : Nat :=
  (((x <<< n) % M32) ||| (x >>> (32 - n)))

/-- UTF-8 encoding of one code point, as byte values. -/
def utf8Char (c : Char) : List Nat :=
  let n := c.toNat
  if n < 128 then [n]
  else if n < 2048 then [192 ||| (n >>> 6), 128 ||| (n &&& 63)]
  else if n < 65536 then
    [224 ||| (n >>> 12), 128 ||| ((n >>> 6) &&& 63), 128 ||| (n &&& 63)]
  else
    [240 ||| (n >>> 18), 128 ||| ((n >>> 12) &&& 63),
     128 ||| ((n >>> 6) &&& 63), 128 ||| (n &&& 63)]

/-- Python `s.encode("utf-8")`. -/
def utf8Encode (s : String) : List Nat := s.data.flatMap utf8Char

/-- SHA-1 padding: `0x80`, zeros to 56 mod 64, then the bit length as eight
big-endian bytes. -/
def sha1Pad (msg : List Nat) : List Nat :=
  let len := msg.length
  let z := (64 + 56 - (len + 1) % 64) % 64
  let bitlen := len * 8
  msg ++ [128] ++ List.replicate z 0 ++
    ((List.range 8).map fun i => (bitlen >>> (8 * (7 - i))) &&& 255)

/-- Chunking into 64-byte blocks, structurally recursive on a fuel argument so that the
kernel can evaluate it; every step consumes at least one byte, so fuel equal
to the input length always suffices. -/
def toBlocksFuel : Nat → List Nat → List (List Nat)
  | _, [] => []
  | 0, _ => []
  | n + 1, l => l.take 64 :: toBlocksFuel n (l.drop 64)

def toBlocks (l : List Nat) : List (List Nat) := toBlocksFuel l.length l

def bytesToWords : List Nat → List Nat
  | a :: b :: c :: d :: rest => (((a * 256 + b) * 256 + c) * 256 + d) :: bytesToWords rest
  | _ => []

/-- Extend the 16 message words of a block to the 80 round words:
`w[t] = rotl1 (w[t-3] xor w[t-8] xor w[t-14] xor w[t-16])`. -/
def extendWords (w : Array Nat) : Array Nat :=
  (List.range 64).foldl
    (fun w i =>
      w.push (rotl 1 ((w.getD (i + 13) 0) ^^^ (w.getD (i + 8) 0) ^^^
        (w.getD (i + 2) 0) ^^^ (w.getD i 0))))
    w

def not32 (x : Nat) : Nat := x ^^^ (M32 - 1)

def sha1Round (w : Array Nat) (st : Nat × Nat × Nat × Nat × Nat) (t : Nat) :
    Nat × Nat × Nat × Nat × Nat :=
  let (a, b, c, d, e) := st
  let f :=
    if t < 20 then (b &&& c) ||| ((not32 b) &&& d)
    else if t < 40 then b ^^^ c ^^^ d
    else if t < 60 then (b &&& c) ||| (b &&& d) ||| (c &&& d)
    else b ^^^ c ^^^ d
  let k :=
    if t < 20 then 1518500249
    else if t < 40 then 1859775393
    else if t < 60 then 2400959708
    else 3395469782
  let temp := (rotl 5 a + f + e + k + w.getD t 0) % M32
  (temp, a, rotl 30 b, c, d)

def sha1Block (h : Nat × Nat × Nat × Nat × Nat) (block : List Nat) :
    Nat × Nat × Nat × Nat × Nat :=
  let w := extendWords (Array.mk (bytesToWords block))
  let (a, b, c, d, e) := (List.range 80).foldl (sha1Round w) h
  let (h0, h1, h2, h3, h4) := h
  ((h0 + a) % M32, (h1 + b) % M32, (h2 + c) % M32, (h3 + d) % M32,
   (h4 + e) % M32)

def wordBytes (w : Nat) : List Nat :=
  [(w >>> 24) &&& 255, (w >>> 16) &&& 255, (w >>> 8) &&& 255, w &&& 255]

/-- Embeds `hashlib.sha1(...).digest()` as a list of 20 byte values. -/
def sha1 (msg : List Nat) : List Nat :=
  let st := (toBlocks (sha1Pad msg)).foldl sha1Block
    (1732584193, 4023233417, 2562383102, 271733878, 3285377520)
  wordBytes st.1 ++ wordBytes st.2.1 ++ wordBytes st.2.2.1 ++
    wordBytes st.2.2.2.1 ++ wordBytes st.2.2.2.2

def hexDigit (n : Nat) : Char := "0123456789abcdef".data.getD (n % 16) '0'

/-- Lowercase hex rendering of a byte list (`.hexdigest()`). -/
def hexOfBytes (bs : List Nat) : List Char :=
  bs.flatMap fun b => [hexDigit ((b / 16) % 16), hexDigit (b % 16)]

/-- Embeds `make_uid(fields)`: the first 16 hex characters of the SHA-1 digest of
the `"|"`-joined `str()` renderings of the fields, suffixed `@youruni`. -/
def make_uid (fields : List Value) : String :=
  ⟨(hexOfBytes (sha1 (utf8Encode
      (String.intercalate "|" (fields.map pyStr))))).take 16⟩ ++ "@youruni"

/-! ### The row loop of `main` (lines 115-201 of the source).

Argument parsing, workbook loading and header-alias resolution are outside
the modelled core; the loop body is parameterized by the resolved column
indices (the `c_*` variables, `-1` when no alias matched a header). -/

def DEFAULT_TZ : String := "Australia/Sydney"

def AUS_TZ_VTIMEZONE : String :=
  "BEGIN:VTIMEZONE\nTZID:Australia/Sydney\nBEGIN:STANDARD\nDTSTART:19700405T030000\nTZOFFSETFROM:+1100\nTZOFFSETTO:+1000\nTZNAME:AEST\nRRULE:FREQ=YEARLY;BYMONTH=4;BYDAY=1SU\nEND:STANDARD\nBEGIN:DAYLIGHT\nDTSTART:19701004T020000\nTZOFFSETFROM:+1000\nTZOFFSETTO:+1100\nTZNAME:AEDT\nRRULE:FREQ=YEARLY;BYMONTH=10;BYDAY=1SU\nEND:DAYLIGHT\nEND:VTIMEZONE\n"

/-- Embeds `fmt_local(dt)` = `dt.strftime("%Y%m%dT%H%M%S")`. -/
def fmt_local (dt : PyDate × PyTime) : String :=
  pad4 dt.1.year ++ pad2 dt.1.month ++ pad2 dt.1.day ++ "T" ++
    pad2 dt.2.hour ++ pad2 dt.2.minute ++ pad2 dt.2.second

/-- Embeds `fmt_date(d)` = `d.strftime("%Y%m%d")`. -/
def fmt_date (d : PyDate) : String :=
  pad4 d.year ++ pad2 d.month ++ pad2 d.day

/-- Embeds `d + timedelta(days=1)`. -/
def addOneDay (d : PyDate) : PyDate :=
  if d.day < daysInMonth d.year d.month then ⟨d.year, d.month, d.day + 1⟩
  else if d.month < 12 then ⟨d.year, d.month + 1, 1⟩
  else ⟨d.year + 1, 1, 1⟩

/-- The resolved column indices (`col(...)` results in `main`; `-1` means
no alias of the field matched any header). -/
structure Cols where
  c_UID : Int
  c_Crs : Int
  c_Title : Int
  c_Cat : Int
  c_SDate : Int
  c_STime : Int
  c_EDate : Int
  c_ETime : Int
  c_TZ : Int
  c_Loc : Int
  c_Desc : Int
  c_URL : Int
  c_TRAN : Int
deriving Repr

/-- Embeds `r[i]` on a row tuple.  `openpyxl` with `values_only=True` yields rows
of the sheet's full width, so a nonnegative header-derived index is always
in range; an out-of-range index defaults to an absent cell. -/
def cellAt (r : List Value) (i : Int) : Value :=
  if h : 0 ≤ i ∧ i.toNat < r.length then r.get ⟨i.toNat, h.2⟩ else .none

/-- One cell of the empty-row test: `v in (None, "")`. -/
def cellEmpty (v : Value) : Bool := v == .none || v == .str ""

/-- Embeds `all(v in (None, "") for v in r)` (line 131). -/
def rowEmpty (r : List Value) : Bool := r.all cellEmpty

/-- Embeds `title = (str(title_raw).strip() if title_raw is not None else "")`
where `title_raw = (r[c_Title] if c_Title >= 0 else "")` (lines 135-136). -/
def title_of (cols : Cols) (r : List Value) : String :=
  let title_raw := if cols.c_Title ≥ 0 then cellAt r cols.c_Title else .str ""
  match title_raw with
  | .none => ""
  | v => pyStrip (pyStr v)

/-- Embeds `sdate = r[c_SDate] if c_SDate >= 0 else None` (line 143). -/
def sdate_of (cols : Cols) (r : List Value) : Value :=
  if cols.c_SDate ≥ 0 then cellAt r cols.c_SDate else .none

/-- The `(str(r[c]).strip() if c >= 0 and r[c] is not None else "")`
pattern used for uid, course, category, location, description and url
(lines 148-157). -/
def strField (c : Int) (r : List Value) : String :=
  if c ≥ 0 ∧ cellAt r c ≠ .none then pyStrip (pyStr (cellAt r c)) else ""

/-- The `r[c] if c >= 0 else ""` pattern used for the raw start-time,
end-date and end-time cells (lines 151-153). -/
def rawField (c : Int) (r : List Value) : Value :=
  if c ≥ 0 then cellAt r c else .str ""

/-- Embeds `tz` (line 154), defaulting to the fixed institutional zone. -/
def tz_of (cols : Cols) (r : List Value) : String :=
  if cols.c_TZ ≥ 0 ∧ cellAt r cols.c_TZ ≠ .none then
    pyStrip (pyStr (cellAt r cols.c_TZ))
  else DEFAULT_TZ

/-- Embeds `is_all_day = (not _to_time(stime) and not _to_time(etime))`
(line 160). -/
def is_all_day_of (cols : Cols) (r : List Value) : Bool :=
  (toTime (rawField cols.c_STime r)).isNone &&
    (toTime (rawField cols.c_ETime r)).isNone

/-- The fields hashed when no uid is supplied
(`[course, title, sdate, edate, stime, etime, location]`, line 162). -/
def uidFields (cols : Cols) (r : List Value) : List Value :=
  [.str (strField cols.c_Crs r), .str (title_of cols r),
   sdate_of cols r, rawField cols.c_EDate r, rawField cols.c_STime r,
   rawField cols.c_ETime r, .str (strField cols.c_Loc r)]

/-- The uid finally emitted (lines 148, 161-162): the supplied cell when
non-empty after trimming, else the derived fingerprint. -/
def uidFinal (cols : Cols) (r : List Value) : String :=
  let uid := strField cols.c_UID r
  if uid = "" then make_uid (uidFields cols r) else uid

/-- Does the second list start with the first? -/
def headMatches : List Char → List Char → Bool
  | [], _ => true
  | _ :: _, [] => false
  | p :: ps, c :: cs => p = c && headMatches ps cs

/-- Python `s.replace(pat, rep)` on character lists, for non-empty `pat`
(the only way the source calls it): scan left to right, replacing each
occurrence and resuming after it.  Structurally recursive on a fuel
argument (every step consumes at least one character, so fuel equal to the
input length always suffices). -/
def replaceFuel (pat rep : List Char) : Nat → List Char → List Char
  | _, [] => []
  | 0, l => l
  | n + 1, c :: rest =>
    if pat ≠ [] ∧ headMatches pat (c :: rest) then
      rep ++ replaceFuel pat rep n (List.drop (pat.length - 1) rest)
    else c :: replaceFuel pat rep n rest

def pyReplace (s pat rep : String) : String :=
  ⟨replaceFuel pat.data rep.data s.data.length s.data⟩

/-- The lines between `DTSTAMP` and the temporal fields (lines 169-179):
summary, transparency, then the optional location / description / url /
category lines. -/
def eventBase (cols : Cols) (r : List Value) : List String :=
  let title := title_of cols r
  let course := strField cols.c_Crs r
  let cat := strField cols.c_Cat r
  let location := strField cols.c_Loc r
  let desc := strField cols.c_Desc r
  let url := strField cols.c_URL r
  let is_transparent := if cols.c_TRAN ≥ 0 then truthy (cellAt r cols.c_TRAN) else false
  let summary := if course ≠ "" then course ++ " — " ++ title else title
  ["SUMMARY:" ++ summary,
   "TRANSP:" ++ (if is_transparent then "TRANSPARENT" else "OPAQUE")] ++
  (if location ≠ "" then ["LOCATION:" ++ location] else []) ++
  (if desc ≠ "" then ["DESCRIPTION:" ++ pyReplace desc "\\n" "\\n"] else []) ++
  (if url ≠ "" then ["URL:" ++ url] else []) ++
  (let cats := (if course ≠ "" then [course] else []) ++
      (if cat ≠ "" then [cat] else []) ++
      (if location ≠ "" then [location] else [])
   if cats ≠ [] then ["CATEGORIES:" ++ String.intercalate "," cats] else [])

/-- The lines appended for one accepted row after the `DTSTAMP` line
(lines 169-200), together with whether the row increments `event_count`.
The start date is the one recomputed at line 182; the guard in
`processRow` makes the `getD` default unreachable. -/
def eventLinesAfterStamp (cols : Cols) (r : List Value) : List String × Bool :=
  let sdate := sdate_of cols r
  let stime := rawField cols.c_STime r
  let edate := rawField cols.c_EDate r
  let etime := rawField cols.c_ETime r
  let tz := tz_of cols r
  if is_all_day_of cols r then
    let start_d := (toDate sdate).getD ⟨1, 1, 1⟩
    let end_d := if pyTruthy edate then (toDate edate).getD start_d else start_d
    let end_excl := addOneDay end_d
    (eventBase cols r ++
      ["DTSTART;VALUE=DATE:" ++ fmt_date start_d,
       "DTEND;VALUE=DATE:" ++ fmt_date end_excl,
       "END:VEVENT"], true)
  else
    let dt_start := parse_datetime sdate stime
    let dt_end := parse_datetime (if pyTruthy edate then edate else sdate)
      (if pyTruthy etime then etime
       else if pyTruthy stime then stime else .str "00:00")
    match dt_start, dt_end with
    | some s, some e =>
        (eventBase cols r ++
          ["DTSTART;TZID=" ++ tz ++ ":" ++ fmt_local s,
           "DTEND;TZID=" ++ tz ++ ":" ++ fmt_local e,
           "END:VEVENT"], true)
    | _, _ => (eventBase cols r ++ ["END:VEVENT"], false)

/-- One iteration of the row loop (lines 129-201): the lines appended for
the row and whether `event_count` was incremented. -/
def processRow (cols : Cols) (now : String) (r : List Value) :
    List String × Bool :=
  if rowEmpty r then ([], false)
  else if title_of cols r = "" then ([], false)
  else
    match toDate (sdate_of cols r) with
    | Option.none => ([], false)
    | some _ =>
      let pc := eventLinesAfterStamp cols r
      ("BEGIN:VEVENT" :: ("UID:" ++ uidFinal cols r) ::
        ("DTSTAMP:" ++ now) :: pc.1, pc.2)

/-- The whole loop over the data rows: accumulated event lines and the
final `event_count`. -/
def eventsOut (cols : Cols) (now : String) : List (List Value) → List String × Nat
  | [] => ([], 0)
  | r :: rs =>
    let (ls, b) := processRow cols now r
    let (rest, c) := eventsOut cols now rs
    (ls ++ rest, (if b then 1 else 0) + c)

/-- The fixed document header (lines 117-124). -/
def headerLines : List String :=
  ["BEGIN:VCALENDAR",
   "PRODID:-//YourUni//Class Feeds 1.0//EN",
   "VERSION:2.0",
   "CALSCALE:GREGORIAN",
   "METHOD:PUBLISH",
   pyStrip AUS_TZ_VTIMEZONE]

/-- The full output line list (`lines` at the time of writing). -/
def document (cols : Cols) (now : String) (rows : List (List Value)) :
    List String :=
  headerLines ++ (eventsOut cols now rows).1

/-- Embeds `"\n".join(lines)`, the written text. -/
def docText (cols : Cols) (now : String) (rows : List (List Value)) : String :=
  String.intercalate "\n" (document cols now rows)

/-! ## Supporting lemmas -/

theorem toDateExc_ok (v : Value) : ∃ r, toDateExc v = .ok r := by
  simp only [toDateExc]
  repeat' first
    | exact ⟨_, rfl⟩
    | split

theorem toTimeExc_ok (v : Value) : ∃ r, toTimeExc v = .ok r := by
  simp only [toTimeExc]
  repeat' first
    | exact ⟨_, rfl⟩
    | split

/-- Every cell of an entirely empty row passes the empty-cell test. -/
theorem rowEmpty_cellAt (r : List Value) (h : rowEmpty r = true) (i : Int) :
    cellEmpty (cellAt r i) = true := by
  unfold cellAt
  split
  · exact List.all_eq_true.mp h _ (List.get_mem r _ _)
  · rfl

/-- An entirely empty row has an empty title. -/
theorem rowEmpty_title (cols : Cols) (r : List Value) (h : rowEmpty r = true) :
    title_of cols r = "" := by
  simp only [title_of]
  by_cases hpos : cols.c_Title ≥ 0
  · rw [if_pos hpos]
    have hc := rowEmpty_cellAt r h cols.c_Title
    generalize hv : cellAt r cols.c_Title = v at hc ⊢
    cases v with
    | none => rfl
    | str s =>
      simp only [cellEmpty, Bool.or_eq_true, beq_iff_eq, reduceCtorEq,
        Value.str.injEq, false_or] at hc
      subst hc
      rfl
    | date d => simp [cellEmpty] at hc
    | time t => simp [cellEmpty] at hc
    | datetime d t => simp [cellEmpty] at hc
  · rw [if_neg hpos]
    rfl

/-- A row whose title is empty or whose start date does not parse is
dropped by `processRow`: nothing is appended and nothing is counted. -/
theorem processRow_skip (cols : Cols) (now : String) (r : List Value)
    (h : title_of cols r = "" ∨ toDate (sdate_of cols r) = Option.none) :
    processRow cols now r = ([], false) := by
  unfold processRow
  by_cases he : rowEmpty r
  · rw [if_pos he]
  · rw [if_neg he]
    rcases h with h | h
    · rw [if_pos h]
    · by_cases ht : title_of cols r = ""
      · rw [if_pos ht]
      · rw [if_neg ht, h]

/-- Unfolding equation for `eventsOut` on a cons cell. -/
theorem eventsOut_cons (cols : Cols) (now : String) (r : List Value)
    (rs : List (List Value)) :
    eventsOut cols now (r :: rs) =
      ((processRow cols now r).1 ++ (eventsOut cols now rs).1,
       (if (processRow cols now r).2 then 1 else 0) + (eventsOut cols now rs).2) := by
  rfl

/-! ## Claim C8 -/

/-- Claim C8: the coercion operations are total.  `toDateExc` and
`toTimeExc` carry the Python exception flow explicitly in their `Except`
result, and on every input value they return `.ok` — no exception escapes;
`truthy` is a plain boolean function.  Parse failures and empty inputs
degrade to the no-value sentinel (`none` / `false`). -/
theorem C8_coercions_total (v : Value) :
    (∃ r, toDateExc v = .ok r) ∧ (∃ r, toTimeExc v = .ok r) ∧
    (truthy v = true ∨ truthy v = false) ∧
    toDateExc Value.none = .ok Option.none ∧
    toDateExc (Value.str "") = .ok Option.none ∧
    toDateExc (Value.str "not a date") = .ok Option.none ∧
    toTimeExc Value.none = .ok Option.none ∧
    toTimeExc (Value.str "25:99") = .ok Option.none ∧
    truthy Value.none = false := by
  refine ⟨toDateExc_ok v, toTimeExc_ok v, ?_, rfl, rfl, rfl, rfl, rfl, rfl⟩
  cases truthy v
  · exact Or.inr rfl
  · exact Or.inl rfl

/-! ## Claim C5 -/

/-- Claim C5: a row whose title cell is empty or absent (after trimming),
or whose start date value is unparseable by every supported format,
produces no event: no lines are appended to the output, the event count is
not incremented, and the surrounding rows are processed exactly as if the
row were absent. -/
theorem C5_no_title_or_date_no_event (cols : Cols) (now : String)
    (r : List Value)
    (h : title_of cols r = "" ∨ toDate (sdate_of cols r) = Option.none) :
    processRow cols now r = ([], false) ∧
    ∀ rs1 rs2 : List (List Value),
      eventsOut cols now (rs1 ++ r :: rs2) = eventsOut cols now (rs1 ++ rs2) := by
  refine ⟨processRow_skip cols now r h, ?_⟩
  intro rs1 rs2
  induction rs1 with
  | nil =>
    simp only [List.nil_append, eventsOut_cons, processRow_skip cols now r h]
    simp
  | cons a as ih =>
    simp only [List.cons_append, eventsOut_cons, ih]

def c5Cols : Cols := ⟨-1, -1, 0, -1, 1, -1, -1, -1, -1, -1, -1, -1, -1⟩

def c5RowBad : List Value := [.str "   ", .str "2024-03-04"]

def c5RowA : List Value := [.str "A", .str "2024-03-04"]

def c5RowB : List Value := [.str "B", .str "2024-03-05"]

/-- Witness for claim C5: a concrete row whose title cell is whitespace
only is dropped, and the two-row document around it is unchanged. -/
theorem C5_witness :
    processRow c5Cols "TS" c5RowBad = ([], false) ∧
    eventsOut c5Cols "TS" [c5RowA, c5RowBad, c5RowB] =
      eventsOut c5Cols "TS" [c5RowA, c5RowB] := by
  have h := C5_no_title_or_date_no_event c5Cols "TS" c5RowBad
    (Or.inl (by decide))
  exact ⟨h.1, h.2 [c5RowA] [c5RowB]⟩

/-! ## Claim C2 -/

/-- A lowercase hexadecimal digit character. -/
def isHexChar (c : Char) : Bool := c.isDigit || ('a' ≤ c && c ≤ 'f')

theorem hexDigit_isHex (n : Nat) : isHexChar (hexDigit n) = true := by
  have h : n % 16 < 16 := Nat.mod_lt _ (by norm_num)
  unfold hexDigit
  set m := n % 16 with hm
  interval_cases m <;> decide

theorem hexOfBytes_cons (b : Nat) (bs : List Nat) :
    hexOfBytes (b :: bs) =
      hexDigit ((b / 16) % 16) :: hexDigit (b % 16) :: hexOfBytes bs := rfl

theorem hexOfBytes_isHex (bs : List Nat) :
    ∀ c ∈ hexOfBytes bs, isHexChar c = true := by
  induction bs with
  | nil => intro c hc; simp [hexOfBytes] at hc
  | cons b bs ih =>
    intro c hc
    rw [hexOfBytes_cons] at hc
    rcases List.mem_cons.mp hc with rfl | hc
    · exact hexDigit_isHex _
    · rcases List.mem_cons.mp hc with rfl | hc
      · exact hexDigit_isHex _
      · exact ih c hc

theorem hexOfBytes_length (bs : List Nat) :
    (hexOfBytes bs).length = 2 * bs.length := by
  induction bs with
  | nil => rfl
  | cons b bs ih =>
    rw [hexOfBytes_cons, List.length_cons, List.length_cons, ih,
      List.length_cons]
    omega

theorem sha1_length (msg : List Nat) : (sha1 msg).length = 20 := by
  unfold sha1
  simp [wordBytes]

/-- Claim C2: for rows with no non-empty supplied id (in any pair of runs
or rows, with possibly different column layouts), the uid is the derived
fingerprint — the first 16 hexadecimal characters of the SHA-1 digest of
the `"|"`-joined string renderings of the ordered field tuple
`(course, title, start date, end date, start time, end time, location)`,
suffixed with the fixed tag `@youruni` — so identical field values always
give the identical uid.  `uidFinal` takes no run-dependent input, so the
derivation is also identical across repeated runs. -/
theorem C2_uid_derived (cols₁ cols₂ : Cols) (r₁ r₂ : List Value)
    (h₁ : strField cols₁.c_UID r₁ = "") (h₂ : strField cols₂.c_UID r₂ = "")
    (hf : uidFields cols₁ r₁ = uidFields cols₂ r₂) :
    uidFinal cols₁ r₁ = uidFinal cols₂ r₂ ∧
    uidFinal cols₁ r₁ =
      String.mk ((hexOfBytes (sha1 (utf8Encode (String.intercalate "|"
        ((uidFields cols₁ r₁).map pyStr))))).take 16) ++ "@youruni" ∧
    (∀ c ∈ (hexOfBytes (sha1 (utf8Encode (String.intercalate "|"
        ((uidFields cols₁ r₁).map pyStr))))).take 16, isHexChar c = true) ∧
    ((hexOfBytes (sha1 (utf8Encode (String.intercalate "|"
        ((uidFields cols₁ r₁).map pyStr))))).take 16).length = 16 := by
  refine ⟨?_, ?_, ?_, ?_⟩
  · unfold uidFinal
    rw [if_pos h₁, if_pos h₂, hf]
  · unfold uidFinal
    rw [if_pos h₁]
    rfl
  · intro c hc
    exact hexOfBytes_isHex _ c (List.take_subset 16 _ hc)
  · rw [List.length_take, hexOfBytes_length, sha1_length]
    decide

def c2Cols : Cols := ⟨0, 1, 2, -1, 3, 4, 5, 6, -1, 7, 8, -1, -1⟩

/-- Two rows identical in the fingerprinted fields but with different
descriptions, and no supplied uid. -/
def c2RowA : List Value :=
  [.none, .str "CS101", .str "Lecture", .str "2024-03-04", .str "14:00",
   .none, .str "16:00", .str "Room 1", .str "first description"]

def c2RowB : List Value :=
  [.str " ", .str "CS101", .str "Lecture", .str "2024-03-04", .str "14:00",
   .none, .str "16:00", .str "Room 1", .str "a different description"]

/-- Witness for claim C2: the two concrete rows above share every
fingerprinted field (though not the description), so they receive the
identical derived uid, of the required 16-hex-plus-tag shape. -/
theorem C2_witness :
    uidFinal c2Cols c2RowA = uidFinal c2Cols c2RowB ∧
    uidFinal c2Cols c2RowA =
      String.mk ((hexOfBytes (sha1 (utf8Encode (String.intercalate "|"
        ((uidFields c2Cols c2RowA).map pyStr))))).take 16) ++ "@youruni" := by
  have h := C2_uid_derived c2Cols c2Cols c2RowA c2RowB
    (by decide) (by decide) (by decide)
  exact ⟨h.1, h.2.1⟩

/-! ## Claim C6 -/

/-- Claim C6: `toDate` returns the date directly for native date/datetime
values; for strings it attempts, in order, ISO `YYYY-MM-DD`, day-first
`DD/MM/YYYY`, month-first `MM/DD/YYYY`, then the generic ISO-8601
fallback, returning the first successful parse; the ambiguous
`"01/02/2024"` therefore parses day-first (1 February 2024), and empty or
wholly unparseable input yields the no-date sentinel. -/
theorem C6_toDate_order :
    (∀ d t, toDate (Value.datetime d t) = some d) ∧
    (∀ d, toDate (Value.date d) = some d) ∧
    (∀ s d, strptimeYMD (pyStrip s) = .ok d → toDate (Value.str s) = some d) ∧
    (∀ s d, strptimeYMD (pyStrip s) = .error .valueError →
      strptimeDMY (pyStrip s) = .ok d → toDate (Value.str s) = some d) ∧
    (∀ s d, strptimeYMD (pyStrip s) = .error .valueError →
      strptimeDMY (pyStrip s) = .error .valueError →
      strptimeMDY (pyStrip s) = .ok d → toDate (Value.str s) = some d) ∧
    (∀ s d t, strptimeYMD (pyStrip s) = .error .valueError →
      strptimeDMY (pyStrip s) = .error .valueError →
      strptimeMDY (pyStrip s) = .error .valueError →
      fromisoformat (pyStrip s) = .ok (d, t) →
      toDate (Value.str s) = some d) ∧
    (∀ s, strptimeYMD (pyStrip s) = .error .valueError →
      strptimeDMY (pyStrip s) = .error .valueError →
      strptimeMDY (pyStrip s) = .error .valueError →
      fromisoformat (pyStrip s) = .error .valueError →
      toDate (Value.str s) = Option.none) ∧
    toDate (Value.str "01/02/2024") = some ⟨2024, 2, 1⟩ ∧
    toDate (Value.str "") = Option.none ∧
    toDate Value.none = Option.none := by
  have hstr : ∀ s : String, s ≠ "" →
      toDate (Value.str s) =
        (match strptimeYMD (pyStrip s) with
         | .ok d => some d
         | .error .valueError =>
           match strptimeDMY (pyStrip s) with
           | .ok d => some d
           | .error .valueError =>
             match strptimeMDY (pyStrip s) with
             | .ok d => some d
             | .error .valueError =>
               match fromisoformat (pyStrip s) with
               | .ok (d, _) => some d
               | .error _ => Option.none) := by
    intro s hs
    have hcond : ¬(Value.str s = Value.none ∨ Value.str s = Value.str "") := by
      simp [hs]
    unfold toDate toDateExc
    rw [if_neg hcond]
    simp only [pyStr]
    cases h1 : strptimeYMD (pyStrip s) with
    | ok d1 => rfl
    | error e =>
      cases e
      cases h2 : strptimeDMY (pyStrip s) with
      | ok d2 => rfl
      | error e2 =>
        cases e2
        cases h3 : strptimeMDY (pyStrip s) with
        | ok d3 => rfl
        | error e3 =>
          cases e3
          cases h4 : fromisoformat (pyStrip s) with
          | ok dt => rfl
          | error e4 => rfl
  refine ⟨fun d t => rfl, fun d => rfl, ?_, ?_, ?_, ?_, ?_, by decide, rfl, rfl⟩
  · intro s d h
    by_cases hs : s = ""
    · subst hs
      exact absurd h (by intro h; exact Except.noConfusion h)
    · rw [hstr s hs, h]
  · intro s d h1 h2
    by_cases hs : s = ""
    · subst hs
      exact absurd h2 (by intro h; exact Except.noConfusion h)
    · rw [hstr s hs, h1, h2]
  · intro s d h1 h2 h3
    by_cases hs : s = ""
    · subst hs
      exact absurd h3 (by intro h; exact Except.noConfusion h)
    · rw [hstr s hs, h1, h2, h3]
  · intro s d t h1 h2 h3 h4
    by_cases hs : s = ""
    · subst hs
      exact absurd h4 (by intro h; exact Except.noConfusion h)
    · rw [hstr s hs, h1, h2, h3, h4]
  · intro s h1 h2 h3 h4
    by_cases hs : s = ""
    · subst hs
      rfl
    · rw [hstr s hs, h1, h2, h3, h4]

/-- Witness for claim C6: the ambiguous slash date resolves day-first via
the second parser in the chain. -/
theorem C6_witness : toDate (Value.str "01/02/2024") = some ⟨2024, 2, 1⟩ := by
  exact C6_toDate_order.2.2.2.1 "01/02/2024" ⟨2024, 2, 1⟩ (by rfl) (by rfl)

/-! ## Claim C9 -/

/-- One row's appended lines for two different run instants are pointwise
equal except that the `DTSTAMP` line carries the respective instant, and
the counted flag is the same. -/
theorem processRow_stampRel (cols : Cols) (n₁ n₂ : String) (r : List Value) :
    List.Forall₂
      (fun a b => a = b ∨ (a = "DTSTAMP:" ++ n₁ ∧ b = "DTSTAMP:" ++ n₂))
      (processRow cols n₁ r).1 (processRow cols n₂ r).1 ∧
    (processRow cols n₁ r).2 = (processRow cols n₂ r).2 := by
  unfold processRow
  by_cases h1 : rowEmpty r
  · simp [h1]
  · by_cases h2 : title_of cols r = ""
    · simp [h1, h2]
    · cases h3 : toDate (sdate_of cols r) with
      | none => simp [h1, h2, h3]
      | some sd =>
        simp only [h1, h2, h3, Bool.false_eq_true, if_false, if_neg]
        refine ⟨?_, trivial⟩
        exact List.Forall₂.cons (Or.inl rfl)
          (List.Forall₂.cons (Or.inl rfl)
            (List.Forall₂.cons (Or.inr ⟨rfl, rfl⟩)
              (List.forall₂_same.mpr fun x _ => Or.inl rfl)))

theorem eventsOut_stampRel (cols : Cols) (n₁ n₂ : String)
    (rows : List (List Value)) :
    List.Forall₂
      (fun a b => a = b ∨ (a = "DTSTAMP:" ++ n₁ ∧ b = "DTSTAMP:" ++ n₂))
      (eventsOut cols n₁ rows).1 (eventsOut cols n₂ rows).1 ∧
    (eventsOut cols n₁ rows).2 = (eventsOut cols n₂ rows).2 := by
  induction rows with
  | nil => exact ⟨List.Forall₂.nil, rfl⟩
  | cons r rs ih =>
    rw [eventsOut_cons, eventsOut_cons]
    refine ⟨List.rel_append (processRow_stampRel cols n₁ n₂ r).1 ih.1, ?_⟩
    rw [(processRow_stampRel cols n₁ n₂ r).2, ih.2]

/-- Claim C9: two runs over the same rows produce line-by-line identical
documents except that each `DTSTAMP` line carries the run's own generation
instant, and they report the same event count — the output is a
deterministic function of the rows and the generation instant. -/
theorem C9_idempotent_modulo_dtstamp (cols : Cols) (rows : List (List Value))
    (n₁ n₂ : String) :
    List.Forall₂
      (fun a b => a = b ∨ (a = "DTSTAMP:" ++ n₁ ∧ b = "DTSTAMP:" ++ n₂))
      (document cols n₁ rows) (document cols n₂ rows) ∧
    (eventsOut cols n₁ rows).2 = (eventsOut cols n₂ rows).2 := by
  refine ⟨?_, (eventsOut_stampRel cols n₁ n₂ rows).2⟩
  unfold document
  have hev := (eventsOut_stampRel cols n₁ n₂ rows).1
  have hhd : List.Forall₂
      (fun a b => a = b ∨ (a = "DTSTAMP:" ++ n₁ ∧ b = "DTSTAMP:" ++ n₂))
      headerLines headerLines :=
    List.forall₂_same.mpr fun x _ => Or.inl rfl
  exact List.rel_append hhd hev

/-! ## Claim C1 -/

set_option maxRecDepth 100000

def c1Cols : Cols := ⟨-1, -1, 0, -1, 1, 2, 3, 4, -1, -1, -1, -1, -1⟩

/-- A timed row (start time `14:00`) whose end-date cell holds the
unparseable text `zz`: title and start date pass, but the end instant is
unresolvable during rendering. -/
def c1Row : List Value := [.str "Lab", .str "2024-03-04", .str "14:00", .str "zz"]

/-- Claim C1 fails on the code: the event header lines are appended
(source lines 166-179) before the start/end instants are resolved, and the
late skip (lines 193-196) only appends `END:VEVENT` and continues.  At the
failing input `c1Row` the skipped row leaves a six-line truncated event
block — `BEGIN:VEVENT`, `UID`, `DTSTAMP`, `SUMMARY`, `TRANSP`,
`END:VEVENT`, with no `DTSTART`/`DTEND` — in the output, although the
success counter is indeed not incremented. -/
theorem C1_skipped_timed_row_emits_partial_block :
    (processRow c1Cols "20240101T000000Z" c1Row).2 = false ∧
    (processRow c1Cols "20240101T000000Z" c1Row).1 =
      ["BEGIN:VEVENT", "UID:" ++ uidFinal c1Cols c1Row,
       "DTSTAMP:20240101T000000Z", "SUMMARY:Lab", "TRANSP:OPAQUE",
       "END:VEVENT"] ∧
    (processRow c1Cols "20240101T000000Z" c1Row).1 ≠ [] ∧
    ((processRow c1Cols "20240101T000000Z" c1Row).1.all
      (fun l => l.data.take 7 ≠ "DTSTART".data)) = true := by
  decide

/-! ## Claim C3 -/

/-- Calendar-date comparison (is `a` on or before `b`?). -/
def dateLE (a b : PyDate) : Bool :=
  a.year < b.year || (a.year = b.year &&
    (a.month < b.month || (a.month = b.month && a.day ≤ b.day)))

/-- Following the specification's words for claim C3: the all-day end
boundary is "one calendar day after the later of (explicit end date, start
date)". -/
def specAllDayEnd (startD : PyDate) (endD : Option PyDate) : PyDate :=
  match endD with
  | some e => if dateLE e startD then addOneDay startD else addOneDay e
  | Option.none => addOneDay startD

def c3Cols : Cols := ⟨-1, -1, 0, -1, 1, -1, 2, -1, -1, -1, -1, -1, -1⟩

/-- An all-day row whose explicit end date (1 March 2024) precedes its
start date (4 March 2024). -/
def c3Row : List Value := [.str "X", .str "2024-03-04", .str "2024-03-01"]

/-- Counterexample to claim C3 as stated: at `c3Row` the claim demands the
exclusive boundary `20240305` (one day after the later date, the start
date), but the emitted line is `DTEND;VALUE=DATE:20240302` — one day after
the earlier explicit end date, which the code uses without comparison. -/
theorem C3_counterexample :
    specAllDayEnd ⟨2024, 3, 4⟩ (some ⟨2024, 3, 1⟩) = ⟨2024, 3, 5⟩ ∧
    fmt_date ⟨2024, 3, 5⟩ = "20240305" ∧
    ((processRow c3Cols "TS" c3Row).1.contains
      "DTEND;VALUE=DATE:20240302") = true ∧
    ((processRow c3Cols "TS" c3Row).1.contains
      "DTEND;VALUE=DATE:20240305") = false := by
  decide

/-- Claim C3, amended: for an accepted all-day row the rendered end
boundary is exclusive — one calendar day after the parsed explicit end
date whenever the end-date cell is non-empty and parseable, even when that
date precedes the start date, and one day after the start date when the
cell is empty, missing or unparseable. -/
theorem C3_allday_end_boundary (cols : Cols) (now : String) (r : List Value)
    (sd : PyDate)
    (ht : title_of cols r ≠ "")
    (hd : toDate (sdate_of cols r) = some sd)
    (ha : is_all_day_of cols r = true) :
    (processRow cols now r).1 =
      ("BEGIN:VEVENT" :: ("UID:" ++ uidFinal cols r) :: ("DTSTAMP:" ++ now) ::
        eventBase cols r) ++
      ["DTSTART;VALUE=DATE:" ++ fmt_date sd,
       "DTEND;VALUE=DATE:" ++ fmt_date (addOneDay
         (if pyTruthy (rawField cols.c_EDate r) then
            (toDate (rawField cols.c_EDate r)).getD sd
          else sd)),
       "END:VEVENT"] ∧
    (processRow cols now r).2 = true := by
  have hre : rowEmpty r = false := by
    by_contra hc
    rw [Bool.not_eq_false] at hc
    exact ht (rowEmpty_title cols r hc)
  unfold processRow
  rw [hre]
  simp only [Bool.false_eq_true, if_false, if_neg ht, hd]
  unfold eventLinesAfterStamp
  rw [ha]
  simp only [if_true, hd, Option.getD_some, List.cons_append, List.nil_append]
  exact ⟨trivial, trivial⟩

/-- Witness for the amended claim C3: the concrete row `c3Row`
instantiates the theorem; its end-date cell is non-empty and parseable, so
the boundary is one day after 1 March 2024. -/
theorem C3_witness :
    (processRow c3Cols "TS" c3Row).1 =
      ("BEGIN:VEVENT" :: ("UID:" ++ uidFinal c3Cols c3Row) ::
        ("DTSTAMP:" ++ "TS") :: eventBase c3Cols c3Row) ++
      ["DTSTART;VALUE=DATE:" ++ fmt_date ⟨2024, 3, 4⟩,
       "DTEND;VALUE=DATE:" ++ fmt_date (addOneDay
         (if pyTruthy (rawField c3Cols.c_EDate c3Row) then
            (toDate (rawField c3Cols.c_EDate c3Row)).getD ⟨2024, 3, 4⟩
          else ⟨2024, 3, 4⟩)),
       "END:VEVENT"] ∧
    (processRow c3Cols "TS" c3Row).2 = true := by
  exact C3_allday_end_boundary c3Cols "TS" c3Row ⟨2024, 3, 4⟩
    (by decide) (by rfl) (by rfl)

/-! ## Claim C4 -/

/-- Following the specification's words for claim C4 (timed path), with
the fallbacks taken on the parsed optional values: the end instant is
(endDate or startDate) combined with (endTime or startTime or midnight). -/
def specTimedEnd (sdate stime edate etime : Value) :
    Option (PyDate × PyTime) :=
  match (toDate edate).orElse (fun _ => toDate sdate) with
  | Option.none => Option.none
  | some d =>
      some (d, ((toTime etime).orElse (fun _ => toTime stime)).getD ⟨0, 0, 0⟩)

def c4Cols : Cols := ⟨-1, -1, 0, -1, 1, 2, 3, 4, -1, -1, -1, -1, -1⟩

/-- A timed row with start time `14:00` and a non-empty but unparseable
end-time cell `zz`. -/
def c4Row : List Value :=
  [.str "T", .str "2024-03-04", .str "14:00", .str "", .str "zz"]

/-- Counterexample to claim C4 as stated: at `c4Row` the claim's parsed
fallback (no parseable end time → start time) gives the end instant
14:00, but the code selects the raw cell `"zz"` — non-empty, hence no
fallback — and `parse_datetime` defaults its failed parse to midnight:
the emitted DTEND is `...T000000`, not `...T140000`. -/
theorem C4_counterexample :
    specTimedEnd (.str "2024-03-04") (.str "14:00") (.str "") (.str "zz") =
      some (⟨2024, 3, 4⟩, ⟨14, 0, 0⟩) ∧
    fmt_local (⟨2024, 3, 4⟩, ⟨14, 0, 0⟩) = "20240304T140000" ∧
    ((processRow c4Cols "TS" c4Row).1.contains
      "DTEND;TZID=Australia/Sydney:20240304T000000") = true ∧
    ((processRow c4Cols "TS" c4Row).1.contains
      "DTEND;TZID=Australia/Sydney:20240304T140000") = false := by
  decide

/-- Claim C4, amended: for a timed row that produces an event, the start
instant combines the start date with the parsed start time (midnight when
it does not parse), and the end instant combines the end date (the raw
end-date cell when non-empty, else the start date) with the time parsed
from the first non-empty raw cell among end time, start time, `"00:00"` —
an unparseable selected cell yielding midnight rather than falling back to
the start time. -/
theorem C4_timed_resolution (cols : Cols) (now : String) (r : List Value)
    (sd ed : PyDate)
    (ht : title_of cols r ≠ "")
    (hd : toDate (sdate_of cols r) = some sd)
    (ha : is_all_day_of cols r = false)
    (he : toDate (if pyTruthy (rawField cols.c_EDate r) then
            rawField cols.c_EDate r else sdate_of cols r) = some ed) :
    (processRow cols now r).1 =
      ("BEGIN:VEVENT" :: ("UID:" ++ uidFinal cols r) :: ("DTSTAMP:" ++ now) ::
        eventBase cols r) ++
      ["DTSTART;TZID=" ++ tz_of cols r ++ ":" ++ fmt_local (sd,
         ⟨((toTime (rawField cols.c_STime r)).getD ⟨0, 0, 0⟩).hour,
          ((toTime (rawField cols.c_STime r)).getD ⟨0, 0, 0⟩).minute, 0⟩),
       "DTEND;TZID=" ++ tz_of cols r ++ ":" ++ fmt_local (ed,
         ⟨((toTime (if pyTruthy (rawField cols.c_ETime r) then
              rawField cols.c_ETime r
            else if pyTruthy (rawField cols.c_STime r) then
              rawField cols.c_STime r
            else .str "00:00")).getD ⟨0, 0, 0⟩).hour,
          ((toTime (if pyTruthy (rawField cols.c_ETime r) then
              rawField cols.c_ETime r
            else if pyTruthy (rawField cols.c_STime r) then
              rawField cols.c_STime r
            else .str "00:00")).getD ⟨0, 0, 0⟩).minute, 0⟩),
       "END:VEVENT"] ∧
    (processRow cols now r).2 = true := by
  have hre : rowEmpty r = false := by
    by_contra hc
    rw [Bool.not_eq_false] at hc
    exact ht (rowEmpty_title cols r hc)
  unfold processRow
  rw [hre]
  simp only [Bool.false_eq_true, if_false, if_neg ht, hd]
  unfold eventLinesAfterStamp
  rw [ha]
  simp only [Bool.false_eq_true, if_false]
  unfold parse_datetime
  rw [hd, he]
  simp only [List.cons_append, List.nil_append]
  exact ⟨trivial, trivial⟩

/-- Witness for the amended claim C4: the concrete row `c4Row`
instantiates the theorem; its end time cell `zz` is non-empty, so it is
selected and parses to midnight. -/
theorem C4_witness :
    (processRow c4Cols "TS" c4Row).1 =
      ("BEGIN:VEVENT" :: ("UID:" ++ uidFinal c4Cols c4Row) ::
        ("DTSTAMP:" ++ "TS") :: eventBase c4Cols c4Row) ++
      ["DTSTART;TZID=" ++ tz_of c4Cols c4Row ++ ":" ++ fmt_local (⟨2024, 3, 4⟩,
         ⟨((toTime (rawField c4Cols.c_STime c4Row)).getD ⟨0, 0, 0⟩).hour,
          ((toTime (rawField c4Cols.c_STime c4Row)).getD ⟨0, 0, 0⟩).minute, 0⟩),
       "DTEND;TZID=" ++ tz_of c4Cols c4Row ++ ":" ++ fmt_local (⟨2024, 3, 4⟩,
         ⟨((toTime (if pyTruthy (rawField c4Cols.c_ETime c4Row) then
              rawField c4Cols.c_ETime c4Row
            else if pyTruthy (rawField c4Cols.c_STime c4Row) then
              rawField c4Cols.c_STime c4Row
            else .str "00:00")).getD ⟨0, 0, 0⟩).hour,
          ((toTime (if pyTruthy (rawField c4Cols.c_ETime c4Row) then
              rawField c4Cols.c_ETime c4Row
            else if pyTruthy (rawField c4Cols.c_STime c4Row) then
              rawField c4Cols.c_STime c4Row
            else .str "00:00")).getD ⟨0, 0, 0⟩).minute, 0⟩),
       "END:VEVENT"] ∧
    (processRow c4Cols "TS" c4Row).2 = true := by
  exact C4_timed_resolution c4Cols "TS" c4Row ⟨2024, 3, 4⟩ ⟨2024, 3, 4⟩
    (by decide) (by rfl) (by rfl) (by rfl)

/-! ## Claim C7 -/

def c7Cols : Cols := ⟨-1, -1, 0, -1, 1, -1, -1, -1, -1, -1, 2, -1, -1⟩

/-- A row whose description cell contains an embedded newline. -/
def c7Row : List Value := [.str "Lab", .str "2024-03-04", .str "Line1\nLine2"]

/-- Claim C7 fails on the code: `desc.replace("\\n", "\\n")` replaces the
two-character sequence backslash-`n` with itself — a no-op — so a
description containing a real newline is emitted raw on the DESCRIPTION
line instead of being escape-encoded. -/
theorem C7_description_unescaped :
    pyReplace "Line1\nLine2" "\\n" "\\n" = "Line1\nLine2" ∧
    ((processRow c7Cols "TS" c7Row).1.contains
      "DESCRIPTION:Line1\nLine2") = true ∧
    (("DESCRIPTION:Line1\nLine2").data.contains '\n') = true := by
  decide

/-! ## Claim C10 -/

def c10Cols : Cols := ⟨-1, -1, 0, -1, 1, -1, -1, -1, -1, -1, -1, -1, -1⟩

/-- A row whose start date is a native date cell. -/
def c10RowNative : List Value := [.str "T", .date ⟨2024, 3, 4⟩]

/-- The same event with the start date as ISO text. -/
def c10RowText : List Value := [.str "T", .str "2024-03-04"]

/-- The same event with the start date spelled day-first. -/
def c10RowSlash : List Value := [.str "T", .str "04/03/2024"]

/-- Counterexample to claim C10 as stated: a native date cell renders by
`str()` to exactly its ISO text `"2024-03-04"`, so the claim's example
pair — a native date cell versus the text `"2024-03-04"` — receives the
*identical* derived uid, not different ones, while indeed rendering
identical event fields (the lines after `UID` coincide). -/
theorem C10_counterexample :
    uidFinal c10Cols c10RowNative = uidFinal c10Cols c10RowText ∧
    (processRow c10Cols "TS" c10RowNative).1.drop 2 =
      (processRow c10Cols "TS" c10RowText).1.drop 2 := by
  decide

/-- Claim C10, amended: the fingerprint is over the Python string
renderings of the raw cells, not the normalized dates.  Spellings whose
renderings differ — `"04/03/2024"` versus `"2024-03-04"`, the same
calendar date — give different uids even though every rendered event field
coincides; but a native date cell renders identically to its ISO text and
receives the same uid. -/
theorem C10_fingerprint_on_renderings :
    toDate (.str "04/03/2024") = toDate (.str "2024-03-04") ∧
    uidFinal c10Cols c10RowSlash ≠ uidFinal c10Cols c10RowText ∧
    (processRow c10Cols "TS" c10RowSlash).1.drop 2 =
      (processRow c10Cols "TS" c10RowText).1.drop 2 ∧
    pyStr (.date ⟨2024, 3, 4⟩) = "2024-03-04" ∧
    uidFinal c10Cols c10RowNative = uidFinal c10Cols c10RowText := by
  decide

end ICS
